import Mathlib

/-!
Verification of the webhook outcome-processing pipeline of the
Nurse-Appointment-Management-System backend (src/backend/routers/webhooks.py
and src/backend/services/__init__.py), as a shallow embedding: each handler
is a pure Lean function from its inputs and an environment of collaborator
oracles to the list of side effects it performs, in order.
-/

/-- Internal call-attempt status enum.
Modelled from the spec: models/schemas.py (CallStatus) is not under src/;
variants per spec §3: pending, in-progress, completed, failed, no-answer. -/
inductive CallStatus where
  | pending
  | in_progress
  | completed
  | failed
  | no_answer
deriving DecidableEq, Repr

/-- Internal call-resolution enum.
Modelled from the spec: models/schemas.py (CallResolution) is not under src/;
variants per spec §3: rescheduled, declined, left-voicemail,
callback-requested, no-answer. -/
inductive CallResolution where
  | rescheduled
  | declined
  | left_voicemail
  | callback_requested
  | no_answer
deriving DecidableEq, Repr

/-- Follow-up flag priority enum.
Modelled from the spec: models/schemas.py (FlagPriority) is not under src/;
variants per spec §3: low, medium, high, urgent. -/
inductive FlagPriority where
  | low
  | medium
  | high
  | urgent
deriving DecidableEq, Repr

/-- The decoded ElevenLabs webhook payload (ElevenLabsWebhookPayload).
Field shape from the docstring of handle_elevenlabs_webhook in webhooks.py;
`new_appointment_time` is a parsed datetime carried here as its ISO string
(a datetime object is always truthy in Python, so presence = truthiness). -/
structure ElevenLabsWebhookPayload where
  call_id : String
  status : String
  outcome : Option String
  new_appointment_time : Option String
  transcript : Option String
  duration_seconds : Option Nat
  metadata : Option (List (String × String))
deriving DecidableEq, Repr

/-- A call_log record as used by webhooks.py: keys "id" and "referral_id" are
read; `status` is the persisted CallAttempt status (terminal or not). -/
structure CallLog where
  id : String
  referral_id : String
  status : CallStatus
deriving DecidableEq, Repr

/-- A referral record, with the fields handle_successful_reschedule reads:
status, scheduled_date, calendar_event_id, patient_email, patient_name,
specialist_type, notes. -/
structure Referral where
  id : String
  status : String
  scheduled_date : Option String
  calendar_event_id : Option String
  patient_email : Option String
  patient_name : String
  specialist_type : String
  notes : Option String
deriving DecidableEq, Repr

/-- The update dict written to the call log by process_call_outcome. -/
structure CallUpdate where
  status : CallStatus
  resolution : Option CallResolution
  completed_at : String
  transcript : Option String
  duration_seconds : Option Nat
deriving DecidableEq, Repr

/-- The flag_data dict passed to db.create_flag by create_follow_up_flag. -/
structure FlagData where
  referral_id : String
  title : String
  description : String
  priority : FlagPriority
  status : String
deriving DecidableEq, Repr

/-- The email_log_data dict passed to db.create_email_log. -/
structure EmailLogData where
  referral_id : String
  email_type : String
  recipient_email : String
  subject : String
  status : String
  sendgrid_message_id : Option String
  calendar_invite_attached : Bool
  sent_at : String
deriving DecidableEq, Repr

/-- Result of email_service.send_appointment_rescheduled_email: a dict with a
"success" flag and an optional provider "message_id". -/
structure EmailResult where
  success : Bool
  message_id : Option String
deriving DecidableEq, Repr

/-- One observable side effect of the pipeline, in the order performed:
database writes, calendar call, email call, and log lines (print). -/
inductive Effect where
  | updateCallLog (id : String) (upd : CallUpdate)
  | rescheduleReferral (id : String) (newTime : String) (reason : String)
  | calendarUpdate (google_event_id : String) (scheduled_at : String)
      (notes : String) (send_update : Bool)
  | sendRescheduleEmail (to_email : String) (patient_name : String)
      (new_datetime : String) (specialist_type : String)
      (old_datetime : Option String) (reason : String)
  | createEmailLog (data : EmailLogData)
  | createFlag (data : FlagData)
  | printed (msg : String)
deriving DecidableEq, Repr

/-- Collaborator oracles for one processing run: database reads, the result of
the referral-reschedule write, availability of the optional Google Calendar
service (the try-import in webhooks.py / services/__init__.py), whether the
calendar update call raises, and the email call's result (none = it raised). -/
structure Env where
  now : String
  getCallLog : String → Option CallLog
  getReferral : String → Option Referral
  rescheduleResult : Option Referral
  calendarAvailable : Bool
  calendarUpdateOk : Bool
  emailResult : Option EmailResult

/-- Python dict.get on a literal dict, compared by string equality. -/
def dictGet {α : Type} : List (String × α) → String → Option α
  | [], _ => none
  | (k2, v) :: rest, k => if k = k2 then some v else dictGet rest k

/-- Python truthiness of an optional string: None and "" are falsy. -/
def truthy : Option String → Bool
  | none => false
  | some s => !(s == "")

/-- Python `a or b` for an optional string `a` and string `b`. -/
def pyOrStr (a : Option String) (b : String) : String :=
  match a with
  | none => b
  | some s => if s = "" then b else s

/-- Python s[:n] slicing. -/
def pySlice (s : String) (n : Nat) : String :=
  ⟨s.toList.take n⟩

/-- Python str.title() on the ASCII strings used here: an alphabetic character
is uppercased when the previous character is not alphabetic, lowercased
otherwise. The flag records whether the previous character was alphabetic. -/
def pyTitleAux : Bool → List Char → List Char
  | _, [] => []
  | prevAlpha, c :: cs =>
      (if c.isAlpha then (if prevAlpha then c.toLower else c.toUpper) else c)
        :: pyTitleAux c.isAlpha cs

/-- Python str.title(). -/
def pyTitle (s : String) : String :=
  ⟨pyTitleAux false s.toList⟩

/-- Python s.replace with a single-character pattern, as used for
call_outcome.replace applied to the underscore: a character map. -/
def pyReplaceUnderscore (s : String) : String :=
  ⟨s.toList.map (fun c => if c = '_' then ' ' else c)⟩

/-- The status_map dict of process_call_outcome (webhooks.py lines 125-129). -/
def status_map : List (String × CallStatus) :=
  [("completed", CallStatus.completed),
   ("failed", CallStatus.failed),
   ("no_answer", CallStatus.no_answer)]

/-- The resolution_map dict of process_call_outcome (lines 131-137). -/
def resolution_map : List (String × CallResolution) :=
  [("rescheduled", CallResolution.rescheduled),
   ("declined", CallResolution.declined),
   ("voicemail", CallResolution.left_voicemail),
   ("callback_requested", CallResolution.callback_requested),
   ("no_answer", CallResolution.no_answer)]

/-- The priority_map dict of create_follow_up_flag (lines 293-300). -/
def priority_map : List (String × FlagPriority) :=
  [("declined", FlagPriority.high),
   ("no_answer", FlagPriority.medium),
   ("voicemail", FlagPriority.medium),
   ("callback_requested", FlagPriority.high),
   ("invalid_number", FlagPriority.urgent),
   ("failed", FlagPriority.high)]

/-- The flag_data record built by create_follow_up_flag (lines 302-317):
description joins the two base lines and, when the transcript is truthy, a
third part embedding transcript[:500]; the title applies str.title() to the
outcome with underscores replaced by spaces; the priority uses
priority_map.get with MEDIUM as default. -/
def follow_up_flag_data (referral_id : String) (call_outcome : String)
    (transcript : Option String) : FlagData :=
  { referral_id := referral_id
    title := "Follow-up needed: " ++ pyTitle (pyReplaceUnderscore call_outcome)
    description :=
      "Automated call outcome: " ++ call_outcome ++ "\n" ++
      "Patient needs manual follow-up to reschedule missed referral." ++
      (if truthy transcript then
        "\n" ++ "\nCall transcript:\n" ++ pySlice (transcript.getD "") 500
          ++ "..."
       else "")
    priority := (dictGet priority_map call_outcome).getD FlagPriority.medium
    status := "open" }

/-- create_follow_up_flag (webhooks.py lines 279-320): performs db.create_flag
with the flag_data record above, then a log line. -/
def create_follow_up_flag (referral_id : String) (call_outcome : String)
    (transcript : Option String) : List Effect :=
  [Effect.createFlag (follow_up_flag_data referral_id call_outcome transcript),
   Effect.printed ("Created follow-up flag for referral " ++ referral_id)]

/-- handle_successful_reschedule (webhooks.py lines 175-276). Early return if
the referral is not found; db.reschedule_referral is failure-fatal (early
return on falsy result); the calendar update runs only when the service's
try-import succeeded and the referral has a truthy calendar_event_id, inside
try/except; the email attempt runs when the updated referral has a truthy
patient_email, inside its own try/except, logging an email record on
success=True. ISO-parsing of the old scheduled date is elided: old_datetime
is carried as the stored string. -/
def handle_successful_reschedule (env : Env) (referral_id : String)
    (new_datetime : String) : List Effect :=
  match env.getReferral referral_id with
  | none => [Effect.printed ("Referral " ++ referral_id ++ " not found")]
  | some existing =>
    let old_datetime := existing.scheduled_date
    Effect.rescheduleReferral referral_id new_datetime
        "Rescheduled via automated call" ::
    match env.rescheduleResult with
    | none => [Effect.printed ("Failed to reschedule referral " ++ referral_id)]
    | some referral =>
      Effect.printed ("Referral " ++ referral_id ++
          " rescheduled: Status changed from " ++ existing.status ++
          " to SCHEDULED") ::
      ((if env.calendarAvailable && truthy existing.calendar_event_id then
          Effect.calendarUpdate (existing.calendar_event_id.getD "")
              new_datetime
              ("Rescheduled via automated call. " ++ referral.notes.getD "")
              true ::
          (if env.calendarUpdateOk then
            [Effect.printed ("Google Calendar event updated: " ++
                existing.calendar_event_id.getD "")]
           else
            [Effect.printed "Failed to update Google Calendar"])
        else []) ++
       (if truthy referral.patient_email then
          Effect.sendRescheduleEmail (referral.patient_email.getD "")
              referral.patient_name new_datetime referral.specialist_type
              old_datetime "Rescheduled via automated call" ::
          (match env.emailResult with
           | none => [Effect.printed "Failed to send reschedule email"]
           | some er =>
             if er.success then
               [Effect.createEmailLog
                 { referral_id := referral_id
                   email_type := "appointment_rescheduled"
                   recipient_email := referral.patient_email.getD ""
                   subject := "Appointment Rescheduled - " ++
                       referral.specialist_type
                   status := "sent"
                   sendgrid_message_id := er.message_id
                   calendar_invite_attached := true
                   sent_at := env.now },
                Effect.printed ("Rescheduled email sent to " ++
                    referral.patient_email.getD "")]
             else [])
        else []) ++
       [Effect.printed ("Successfully completed reschedule workflow for referral "
           ++ referral_id)])

/-- The call_update dict of process_call_outcome (webhooks.py lines 140-146):
status via status_map.get with COMPLETED as default, resolution via
resolution_map.get when the outcome is truthy, completed-at stamped now. -/
def call_update_of (now : String) (payload : ElevenLabsWebhookPayload) :
    CallUpdate :=
  { status := (dictGet status_map payload.status).getD CallStatus.completed
    resolution :=
      if truthy payload.outcome then
        dictGet resolution_map (payload.outcome.getD "")
      else none
    completed_at := now
    transcript := payload.transcript
    duration_seconds := payload.duration_seconds }

/-- process_call_outcome (webhooks.py lines 112-172): updates the call log
record unconditionally with the call_update dict, then branches: if
outcome == "rescheduled" and a new appointment time is present, run
handle_successful_reschedule; otherwise create_follow_up_flag with
`payload.outcome or payload.status`. -/
def process_call_outcome (env : Env) (call_log : CallLog)
    (payload : ElevenLabsWebhookPayload) : List Effect :=
  let referral_id := call_log.referral_id
  Effect.updateCallLog call_log.id (call_update_of env.now payload) ::
  (if payload.outcome == some "rescheduled"
      && payload.new_appointment_time.isSome then
    Effect.printed ("Call outcome: RESCHEDULED - Updating referral " ++
        referral_id) ::
    handle_successful_reschedule env referral_id
        (payload.new_appointment_time.getD "")
   else
    Effect.printed ("Call outcome: " ++ pyOrStr payload.outcome payload.status)
        ::
    create_follow_up_flag referral_id (pyOrStr payload.outcome payload.status)
        payload.transcript)

/-- Modelled from the spec: the signature verifier lives in
services/elevenlabs_service.py, which is not under src/. Per spec §4.1 it
computes an HMAC over the raw body with a pre-shared secret (the hex digest
function is a parameter here, since the spec fixes no algorithm) and returns
whether the header value matches. -/
def verify_webhook_signature (hmacHex : String → String → String)
    (secret : String) (body : String) (sig : String) : Bool :=
  sig == hmacHex secret body

/-- The HTTP-level response of the webhook endpoint. -/
structure WebhookResponse where
  success : Bool
  message : String
deriving DecidableEq, Repr

/-- Outcome of the boundary handler: either an HTTPException (status code and
detail) or a WebhookResponse, plus the background task scheduled (if any) and
the synchronous side effects (log lines only). -/
structure HandlerResult where
  response : Except (Nat × String) WebhookResponse
  scheduled : Option (CallLog × ElevenLabsWebhookPayload)
  effects : List Effect
deriving Repr

/-- handle_elevenlabs_webhook (webhooks.py lines 31-109): verify the signature
over the raw body first (an absent header is passed as ""), 401 on failure;
only then parse the body (the parser is a parameter: the result must not
depend on it before verification), 400 on parse failure; then look up
metadata["call_log_id"] and the call log, acknowledging success with no
scheduled work when either is missing; otherwise schedule
process_call_outcome as a background task and acknowledge. -/
def handle_elevenlabs_webhook (hmacHex : String → String → String)
    (secret : String) (env : Env) (body : String)
    (x_webhook_signature : Option String)
    (parse : String → Except String ElevenLabsWebhookPayload) : HandlerResult :=
  if !(verify_webhook_signature hmacHex secret body
        (x_webhook_signature.getD "")) then
    { response := Except.error (401, "Invalid webhook signature")
      scheduled := none
      effects := [] }
  else
    match parse body with
    | Except.error e =>
      { response := Except.error (400, "Invalid payload: " ++ e)
        scheduled := none
        effects := [] }
    | Except.ok payload =>
      let call_log_id :=
        payload.metadata.bind (fun m => dictGet m "call_log_id")
      if !(truthy call_log_id) then
        { response := Except.ok { success := true
                                  message := "Call log ID not found, ignoring" }
          scheduled := none
          effects :=
            [Effect.printed "Missing call_log_id in ElevenLabs webhook metadata"] }
      else
        match env.getCallLog (call_log_id.getD "") with
        | none =>
          { response := Except.ok { success := true
                                    message := "Call log not found, ignoring" }
            scheduled := none
            effects := [Effect.printed ("Unknown call_log_id: " ++
                call_log_id.getD "")] }
        | some call_log =>
          { response := Except.ok { success := true
                                    message := "Webhook received, processing" }
            scheduled := some (call_log, payload)
            effects := [] }

/-! Helper lemmas about the traces of the two sub-flows. -/

/-- The reschedule orchestrator never creates a follow-up flag. -/
theorem createFlag_not_mem_reschedule (env : Env) (rid nt : String)
    (fd : FlagData) :
    Effect.createFlag fd ∉ handle_successful_reschedule env rid nt := by
  unfold handle_successful_reschedule
  cases env.getReferral rid with
  | none => simp
  | some existing =>
    cases env.rescheduleResult with
    | none => simp
    | some referral =>
      cases env.emailResult with
      | none => split_ifs <;> simp
      | some er => split_ifs <;> simp

/-- A calendar update appears in the orchestrator's trace only when the
calendar service is available and the referral found has a truthy linked
calendar event. -/
theorem calendarUpdate_mem_guard (env : Env) (rid nt : String)
    (ev t no : String) (su : Bool)
    (h : Effect.calendarUpdate ev t no su ∈
      handle_successful_reschedule env rid nt) :
    env.calendarAvailable = true ∧
    ∃ ex, env.getReferral rid = some ex ∧
      truthy ex.calendar_event_id = true := by
  unfold handle_successful_reschedule at h
  revert h
  cases hg : env.getReferral rid with
  | none => intro h; simp at h
  | some existing =>
    cases hr : env.rescheduleResult with
    | none => intro h; simp at h
    | some referral =>
      by_cases hc :
          (env.calendarAvailable && truthy existing.calendar_event_id) = true
      · intro h
        rw [Bool.and_eq_true] at hc
        exact ⟨hc.1, existing, rfl, hc.2⟩
      · simp only [if_neg hc, List.nil_append]
        cases env.emailResult <;> split_ifs <;> intro h <;> simp_all

/-! Concrete inputs for the terminal-reprocessing evaluation: a call log whose
persisted status is already terminal (completed), redelivered a failed/declined
event. -/

def sampleEnv : Env :=
  { now := "2026-01-01T00:00:00"
    getCallLog := fun _ => none
    getReferral := fun _ => none
    rescheduleResult := none
    calendarAvailable := false
    calendarUpdateOk := false
    emailResult := none }

def sampleCallLog : CallLog :=
  { id := "cl-1", referral_id := "r-1", status := CallStatus.completed }

def payloadDeclined : ElevenLabsWebhookPayload :=
  { call_id := "ev-1"
    status := "failed"
    outcome := some "declined"
    new_appointment_time := none
    transcript := none
    duration_seconds := none
    metadata := some [("call_log_id", "cl-1")] }

/-- C1: the claim says re-processing a CallAttempt already in terminal status
is a no-op. The code has no terminal-status check: for a call log whose
persisted status is already `completed`, process_call_outcome still rewrites
the record and produces a full second set of downstream side effects (here a
second follow-up flag), contradicting the module's own docstring
("Be idempotent"). The trace below is the complete, non-empty effect list. -/
theorem terminal_reprocess_not_noop :
    sampleCallLog.status = CallStatus.completed ∧
    process_call_outcome sampleEnv sampleCallLog payloadDeclined =
      [Effect.updateCallLog "cl-1"
          { status := CallStatus.failed
            resolution := some CallResolution.declined
            completed_at := "2026-01-01T00:00:00"
            transcript := none
            duration_seconds := none },
       Effect.printed "Call outcome: declined",
       Effect.createFlag
          { referral_id := "r-1"
            title := "Follow-up needed: Declined"
            description := "Automated call outcome: declined\nPatient needs manual follow-up to reschedule missed referral."
            priority := FlagPriority.high
            status := "open" },
       Effect.printed "Created follow-up flag for referral r-1"] := by
  constructor
  · rfl
  · decide

/-- The follow-up priority table exactly as the spec words it (claim C8):
declined → high, no_answer → medium, voicemail → medium,
callback_requested → high, invalid_number → urgent, failed → high, and every
other outcome string → medium. -/
def specFollowUpPriority (o : String) : FlagPriority :=
  if o = "declined" then FlagPriority.high
  else if o = "no_answer" then FlagPriority.medium
  else if o = "voicemail" then FlagPriority.medium
  else if o = "callback_requested" then FlagPriority.high
  else if o = "invalid_number" then FlagPriority.urgent
  else if o = "failed" then FlagPriority.high
  else FlagPriority.medium

/-- C8: for every outcome string, the priority the flagger computes
(priority_map.get with MEDIUM default) equals the spec's table, and the
FollowUpFlag it creates carries exactly that priority. -/
theorem follow_up_priority_mapping (rid o : String) (t : Option String) :
    (dictGet priority_map o).getD FlagPriority.medium = specFollowUpPriority o
    ∧ ∃ fd, Effect.createFlag fd ∈ create_follow_up_flag rid o t ∧
        fd.priority = specFollowUpPriority o := by
  have h : (dictGet priority_map o).getD FlagPriority.medium
      = specFollowUpPriority o := by
    simp only [priority_map, dictGet, specFollowUpPriority]
    split_ifs <;> rfl
  refine ⟨h, follow_up_flag_data rid o t, ?_, ?_⟩
  · simp [create_follow_up_flag]
  · simpa [follow_up_flag_data] using h

/-! Concrete inputs for the unmapped-status claims: a provider status string
outside {completed, failed, no_answer}. -/

def payloadUnmappedResched : ElevenLabsWebhookPayload :=
  { call_id := "ev-2"
    status := "canceled"
    outcome := some "rescheduled"
    new_appointment_time := some "2026-02-01T14:00:00Z"
    transcript := none
    duration_seconds := none
    metadata := some [("call_log_id", "cl-1")] }

/-- C2 counterexample: the claim says every unmapped provider status maps to
the most conservative terminal status, i.e. is treated as a failure requiring
human follow-up. For the unmapped status "canceled" the code maps the status
to `completed` (the default of status_map.get), not `failed`; and with
outcome "rescheduled" plus a new time the event takes the success path, with
no follow-up flag anywhere in the trace. -/
theorem unmapped_status_not_failure_cex :
    (dictGet status_map "canceled").getD CallStatus.completed
      = CallStatus.completed ∧
    CallStatus.completed ≠ CallStatus.failed ∧
    process_call_outcome sampleEnv sampleCallLog payloadUnmappedResched =
      [Effect.updateCallLog "cl-1"
          { status := CallStatus.completed
            resolution := some CallResolution.rescheduled
            completed_at := "2026-01-01T00:00:00"
            transcript := none
            duration_seconds := none },
       Effect.printed "Call outcome: RESCHEDULED - Updating referral r-1",
       Effect.printed "Referral r-1 not found"] := by
  refine ⟨rfl, by decide, by decide⟩

/-- C2 amended: an unmapped provider status string defaults to the internal
status `completed` (it is not mapped to a failure status), and such an event
is never silently dropped: the branch decision depends only on the outcome,
and whenever the reschedule branch is not taken a FollowUpFlag is created. -/
theorem unmapped_status_defaults_completed (s : String)
    (h1 : s ≠ "completed") (h2 : s ≠ "failed") (h3 : s ≠ "no_answer") :
    (dictGet status_map s).getD CallStatus.completed = CallStatus.completed ∧
    ∀ (env : Env) (cl : CallLog) (p : ElevenLabsWebhookPayload),
      p.status = s →
      (p.outcome == some "rescheduled" && p.new_appointment_time.isSome)
        = false →
      ∃ fd, Effect.createFlag fd ∈ process_call_outcome env cl p := by
  constructor
  · simp [status_map, dictGet, h1, h2, h3]
  · intro env cl p _ hcond
    refine ⟨follow_up_flag_data cl.referral_id (pyOrStr p.outcome p.status)
      p.transcript, ?_⟩
    simp [process_call_outcome, hcond, create_follow_up_flag]

def payloadUnmappedDeclined : ElevenLabsWebhookPayload :=
  { call_id := "ev-3"
    status := "canceled"
    outcome := some "declined"
    new_appointment_time := none
    transcript := none
    duration_seconds := none
    metadata := some [("call_log_id", "cl-1")] }

theorem unmapped_status_defaults_completed_witness :
    (dictGet status_map "canceled").getD CallStatus.completed
      = CallStatus.completed ∧
    ∃ fd, Effect.createFlag fd ∈
      process_call_outcome sampleEnv sampleCallLog payloadUnmappedDeclined :=
  ⟨(unmapped_status_defaults_completed "canceled" (by decide) (by decide)
      (by decide)).1,
   (unmapped_status_defaults_completed "canceled" (by decide) (by decide)
      (by decide)).2 sampleEnv sampleCallLog payloadUnmappedDeclined rfl
      (by decide)⟩

/-- C3: the Outcome Processor's branch decision. When the outcome equals
"rescheduled" and a new appointment time is present, the trace is the call-log
update followed by the Reschedule Orchestrator's trace; otherwise it is the
call-log update followed by the Follow-up Flagger's trace; and a follow-up
flag appears in the trace exactly when the reschedule branch is not taken
(the orchestrator never creates a flag, the flagger always does), so there is
no third path. -/
theorem process_branch_decision (env : Env) (cl : CallLog)
    (p : ElevenLabsWebhookPayload) :
    ((p.outcome == some "rescheduled" && p.new_appointment_time.isSome) = true
      → process_call_outcome env cl p =
        Effect.updateCallLog cl.id (call_update_of env.now p) ::
        Effect.printed ("Call outcome: RESCHEDULED - Updating referral " ++
            cl.referral_id) ::
        handle_successful_reschedule env cl.referral_id
            (p.new_appointment_time.getD "")) ∧
    ((p.outcome == some "rescheduled" && p.new_appointment_time.isSome) = false
      → process_call_outcome env cl p =
        Effect.updateCallLog cl.id (call_update_of env.now p) ::
        Effect.printed ("Call outcome: " ++ pyOrStr p.outcome p.status) ::
        create_follow_up_flag cl.referral_id (pyOrStr p.outcome p.status)
            p.transcript) ∧
    ((∃ fd, Effect.createFlag fd ∈ process_call_outcome env cl p) ↔
      ¬(p.outcome = some "rescheduled" ∧ p.new_appointment_time.isSome = true))
    := by
  refine ⟨?_, ?_, ?_⟩
  · intro hc
    simp [process_call_outcome, hc]
  · intro hc
    simp [process_call_outcome, hc]
  · constructor
    · rintro ⟨fd, hfd⟩ ⟨ho, ht⟩
      have hc : (p.outcome == some "rescheduled"
          && p.new_appointment_time.isSome) = true := by
        rw [ho, ht]; rfl
      rw [show process_call_outcome env cl p =
          Effect.updateCallLog cl.id (call_update_of env.now p) ::
          Effect.printed ("Call outcome: RESCHEDULED - Updating referral " ++
              cl.referral_id) ::
          handle_successful_reschedule env cl.referral_id
              (p.new_appointment_time.getD "") from by
        simp [process_call_outcome, hc]] at hfd
      simp only [List.mem_cons] at hfd
      rcases hfd with h1 | h2 | h3
      · exact Effect.noConfusion h1
      · exact Effect.noConfusion h2
      · exact createFlag_not_mem_reschedule env cl.referral_id _ fd h3
    · intro hn
      cases hbool : (p.outcome == some "rescheduled"
          && p.new_appointment_time.isSome) with
      | true =>
        exfalso
        rw [Bool.and_eq_true, beq_iff_eq] at hbool
        exact hn ⟨hbool.1, hbool.2⟩
      | false =>
        refine ⟨follow_up_flag_data cl.referral_id
          (pyOrStr p.outcome p.status) p.transcript, ?_⟩
        simp [process_call_outcome, hbool, create_follow_up_flag]

def payloadRescheduled : ElevenLabsWebhookPayload :=
  { call_id := "ev-4"
    status := "completed"
    outcome := some "rescheduled"
    new_appointment_time := some "2026-02-01T14:00:00Z"
    transcript := some "ok"
    duration_seconds := some 120
    metadata := some [("call_log_id", "cl-1")] }

theorem process_branch_decision_witness :
    process_call_outcome sampleEnv sampleCallLog payloadRescheduled =
      Effect.updateCallLog sampleCallLog.id
          (call_update_of sampleEnv.now payloadRescheduled) ::
      Effect.printed ("Call outcome: RESCHEDULED - Updating referral " ++
          sampleCallLog.referral_id) ::
      handle_successful_reschedule sampleEnv sampleCallLog.referral_id
          (payloadRescheduled.new_appointment_time.getD "") :=
  (process_branch_decision sampleEnv sampleCallLog payloadRescheduled).1
    (by decide)

/-- C7: when step 1 fails (db.reschedule_referral returns a falsy result), the
orchestrator's complete trace is the attempted referral update followed by the
logged error, and nothing else: no calendar update and no email are attempted
afterwards (FatalStateUpdateFailure is surfaced through the error log per the
spec's observability requirement; the function aborts by early return). -/
theorem reschedule_step1_failure_aborts (env : Env) (rid nt : String)
    (existing : Referral)
    (hget : env.getReferral rid = some existing)
    (hres : env.rescheduleResult = none) :
    handle_successful_reschedule env rid nt =
      [Effect.rescheduleReferral rid nt "Rescheduled via automated call",
       Effect.printed ("Failed to reschedule referral " ++ rid)] := by
  simp [handle_successful_reschedule, hget, hres]

/-- A sample referral with a linked calendar event and a patient email. -/
def sampleReferral : Referral :=
  { id := "r-1"
    status := "missed"
    scheduled_date := some "2026-01-15T10:00:00Z"
    calendar_event_id := some "gcal-1"
    patient_email := some "pat@example.com"
    patient_name := "Pat Doe"
    specialist_type := "Cardiology"
    notes := some "n1" }

def envStep1Fail : Env :=
  { now := "2026-01-01T00:00:00"
    getCallLog := fun _ => none
    getReferral := fun _ => some sampleReferral
    rescheduleResult := none
    calendarAvailable := true
    calendarUpdateOk := true
    emailResult := some { success := true, message_id := some "m-1" } }

theorem reschedule_step1_failure_aborts_witness :
    handle_successful_reschedule envStep1Fail "r-1" "2026-02-01T14:00:00Z" =
      [Effect.rescheduleReferral "r-1" "2026-02-01T14:00:00Z"
          "Rescheduled via automated call",
       Effect.printed ("Failed to reschedule referral " ++ "r-1")] :=
  reschedule_step1_failure_aborts envStep1Fail "r-1" "2026-02-01T14:00:00Z"
    sampleReferral rfl rfl

/-- C6: with step 1 succeeded, the calendar service available, a linked
calendar event, and the calendar update failing (raising), the orchestrator's
trace still contains the referral update (step 1 is not rolled back), still
contains the attempted calendar update, still attempts the email whenever the
updated referral has a patient email, and still reaches its final completion
log line (no exception escapes: the embedding of the try/except continues
past the failure). Moreover, in any run whatsoever, a calendar update appears
in the trace only when the calendar collaborator is available and the
referral found has a truthy linked calendar event. -/
theorem calendar_failure_best_effort (env : Env) (rid nt : String)
    (existing referral : Referral)
    (hget : env.getReferral rid = some existing)
    (hres : env.rescheduleResult = some referral)
    (havail : env.calendarAvailable = true)
    (hev : truthy existing.calendar_event_id = true)
    (hfail : env.calendarUpdateOk = false) :
    (Effect.rescheduleReferral rid nt "Rescheduled via automated call"
        ∈ handle_successful_reschedule env rid nt) ∧
    (Effect.calendarUpdate (existing.calendar_event_id.getD "") nt
        ("Rescheduled via automated call. " ++ referral.notes.getD "") true
        ∈ handle_successful_reschedule env rid nt) ∧
    (truthy referral.patient_email = true →
      Effect.sendRescheduleEmail (referral.patient_email.getD "")
          referral.patient_name nt referral.specialist_type
          existing.scheduled_date "Rescheduled via automated call"
        ∈ handle_successful_reschedule env rid nt) ∧
    (Effect.printed ("Successfully completed reschedule workflow for referral "
        ++ rid) ∈ handle_successful_reschedule env rid nt) ∧
    (∀ (env2 : Env) (rid2 nt2 ev t no : String) (su : Bool),
      Effect.calendarUpdate ev t no su ∈
        handle_successful_reschedule env2 rid2 nt2 →
      env2.calendarAvailable = true ∧
      ∃ ex, env2.getReferral rid2 = some ex ∧
        truthy ex.calendar_event_id = true) := by
  have hcal : (env.calendarAvailable && truthy existing.calendar_event_id)
      = true := by rw [havail, hev]; rfl
  refine ⟨?_, ?_, ?_, ?_,
    fun env2 rid2 nt2 ev t no su h =>
      calendarUpdate_mem_guard env2 rid2 nt2 ev t no su h⟩
  · simp [handle_successful_reschedule, hget, hres]
  · simp [handle_successful_reschedule, hget, hres, hcal, hfail]
  · intro hpe
    simp [handle_successful_reschedule, hget, hres, hcal, hfail, hpe]
  · simp [handle_successful_reschedule, hget, hres, hcal, hfail]

def envCalFail : Env :=
  { now := "2026-01-01T00:00:00"
    getCallLog := fun _ => none
    getReferral := fun _ => some sampleReferral
    rescheduleResult := some sampleReferral
    calendarAvailable := true
    calendarUpdateOk := false
    emailResult := some { success := true, message_id := some "m-1" } }

theorem calendar_failure_best_effort_witness :
    (Effect.rescheduleReferral "r-1" "2026-02-01T14:00:00Z"
        "Rescheduled via automated call"
      ∈ handle_successful_reschedule envCalFail "r-1" "2026-02-01T14:00:00Z") ∧
    (Effect.sendRescheduleEmail "pat@example.com" "Pat Doe"
        "2026-02-01T14:00:00Z" "Cardiology" (some "2026-01-15T10:00:00Z")
        "Rescheduled via automated call"
      ∈ handle_successful_reschedule envCalFail "r-1" "2026-02-01T14:00:00Z") ∧
    (Effect.printed ("Successfully completed reschedule workflow for referral "
        ++ "r-1")
      ∈ handle_successful_reschedule envCalFail "r-1" "2026-02-01T14:00:00Z")
    := by
  have h := calendar_failure_best_effort envCalFail "r-1" "2026-02-01T14:00:00Z"
    sampleReferral sampleReferral rfl rfl rfl (by decide) rfl
  exact ⟨h.1, h.2.2.1 (by decide), h.2.2.2.1⟩

/-- C4: for every request whose signature header is absent or does not match
the HMAC of the raw body (the digest is any function with a non-empty output,
per spec section 4.1; the comparison itself is spec-modelled since
services/elevenlabs_service.py is not under src/), the boundary handler's
result is exactly the 401 rejection with no scheduled background task and no
side effects — for every environment and every body parser, so nothing is
decoded, no correlation is looked up, and the absent and mismatched cases
yield the identical result. -/
theorem webhook_rejects_bad_signature
    (hmacHex : String → String → String) (secret : String) (env : Env)
    (body : String) (sig : Option String)
    (parse : String → Except String ElevenLabsWebhookPayload)
    (hmac_ne : hmacHex secret body ≠ "")
    (hbad : ∀ s, sig = some s → s ≠ hmacHex secret body) :
    handle_elevenlabs_webhook hmacHex secret env body sig parse =
      { response := Except.error (401, "Invalid webhook signature")
        scheduled := none
        effects := [] } := by
  have hv : verify_webhook_signature hmacHex secret body (sig.getD "") = false
      := by
    unfold verify_webhook_signature
    cases sig with
    | none =>
      simp only [Option.getD_none, beq_eq_false_iff_ne]
      exact fun h => hmac_ne h.symm
    | some s =>
      simp only [Option.getD_some, beq_eq_false_iff_ne]
      exact hbad s rfl
  simp [handle_elevenlabs_webhook, hv]

theorem webhook_rejects_bad_signature_witness :
    handle_elevenlabs_webhook (fun _ _ => "aa") "secret" sampleEnv "body" none
        (fun _ => Except.error "boom") =
      { response := Except.error (401, "Invalid webhook signature")
        scheduled := none
        effects := [] } :=
  webhook_rejects_bad_signature (fun _ _ => "aa") "secret" sampleEnv "body"
    none (fun _ => Except.error "boom") (by decide) (fun s h => by cases h)

/-- C5: for every validly-signed request whose body parses but whose
correlation payload lacks a truthy call_log_id, or names a call log the store
does not have, the handler responds success, schedules no background
processing, and its only side effects are log lines (in particular no record
is created or modified). -/
theorem webhook_correlation_miss_noop
    (hmacHex : String → String → String) (secret : String) (env : Env)
    (body : String) (sig : Option String)
    (parse : String → Except String ElevenLabsWebhookPayload)
    (payload : ElevenLabsWebhookPayload)
    (hsig : verify_webhook_signature hmacHex secret body (sig.getD "") = true)
    (hparse : parse body = Except.ok payload)
    (hmiss : truthy (payload.metadata.bind (fun m => dictGet m "call_log_id"))
        = false ∨
      env.getCallLog
        ((payload.metadata.bind (fun m => dictGet m "call_log_id")).getD "")
        = none) :
    (∃ msg, (handle_elevenlabs_webhook hmacHex secret env body sig
        parse).response = Except.ok { success := true, message := msg }) ∧
    (handle_elevenlabs_webhook hmacHex secret env body sig parse).scheduled
      = none ∧
    (∀ e ∈ (handle_elevenlabs_webhook hmacHex secret env body sig
        parse).effects, ∃ m, e = Effect.printed m) := by
  by_cases ht : truthy (payload.metadata.bind (fun m => dictGet m
      "call_log_id")) = true
  · have hlog : env.getCallLog
        ((payload.metadata.bind (fun m => dictGet m "call_log_id")).getD "")
        = none := by
      rcases hmiss with hm | hm
      · rw [ht] at hm; cases hm
      · exact hm
    refine ⟨⟨"Call log not found, ignoring", ?_⟩, ?_, ?_⟩ <;>
      simp [handle_elevenlabs_webhook, hsig, hparse, ht, hlog]
  · rw [Bool.not_eq_true] at ht
    refine ⟨⟨"Call log ID not found, ignoring", ?_⟩, ?_, ?_⟩ <;>
      simp [handle_elevenlabs_webhook, hsig, hparse, ht]

def payloadNoMetadata : ElevenLabsWebhookPayload :=
  { call_id := "ev-5"
    status := "completed"
    outcome := some "rescheduled"
    new_appointment_time := some "2026-02-01T14:00:00Z"
    transcript := none
    duration_seconds := none
    metadata := none }

theorem webhook_correlation_miss_noop_witness :
    (∃ msg, (handle_elevenlabs_webhook (fun _ _ => "aa") "secret" sampleEnv
        "body" (some "aa") (fun _ => Except.ok payloadNoMetadata)).response
        = Except.ok { success := true, message := msg }) ∧
    (handle_elevenlabs_webhook (fun _ _ => "aa") "secret" sampleEnv "body"
        (some "aa") (fun _ => Except.ok payloadNoMetadata)).scheduled = none ∧
    (∀ e ∈ (handle_elevenlabs_webhook (fun _ _ => "aa") "secret" sampleEnv
        "body" (some "aa") (fun _ => Except.ok payloadNoMetadata)).effects,
      ∃ m, e = Effect.printed m) :=
  webhook_correlation_miss_noop (fun _ _ => "aa") "secret" sampleEnv "body"
    (some "aa") (fun _ => Except.ok payloadNoMetadata) payloadNoMetadata
    (by decide) rfl (Or.inl (by decide))

/-- C9: on any event with a non-empty transcript, the flag the flagger
creates embeds exactly the first-500-character slice of the transcript in its
description: the embedded excerpt has length at most 500 and is an initial
segment of the transcript, regardless of the transcript's length; and the
flag's title is derived from the outcome string (the fixed prefix followed by
the outcome with underscores replaced by spaces, title-cased). -/
theorem flag_transcript_truncation (rid o t : String) (ht : t ≠ "") :
    ∃ fd, Effect.createFlag fd ∈ create_follow_up_flag rid o (some t) ∧
      fd.description =
        "Automated call outcome: " ++ o ++ "\n" ++
        "Patient needs manual follow-up to reschedule missed referral." ++
        ("\n" ++ "\nCall transcript:\n" ++ pySlice t 500 ++ "...") ∧
      (pySlice t 500).length ≤ 500 ∧
      (∃ rest, t.toList = (pySlice t 500).toList ++ rest) ∧
      fd.title = "Follow-up needed: " ++ pyTitle (pyReplaceUnderscore o) := by
  have htr : truthy (some t) = true := by
    simp [truthy]
    exact ht
  refine ⟨follow_up_flag_data rid o (some t), ?_, ?_, ?_, ?_, ?_⟩
  · simp [create_follow_up_flag]
  · simp [follow_up_flag_data, htr]
  · have hl : (pySlice t 500).length = (t.toList.take 500).length := rfl
    rw [hl, List.length_take]
    exact min_le_left _ _
  · exact ⟨t.toList.drop 500, (List.take_append_drop 500 t.toList).symm⟩
  · rfl

theorem flag_transcript_truncation_witness :
    ("Hello patient" : String) ≠ "" ∧
    ∃ fd, Effect.createFlag fd ∈
        create_follow_up_flag "r-1" "no_answer" (some "Hello patient") ∧
      fd.description =
        "Automated call outcome: " ++ "no_answer" ++ "\n" ++
        "Patient needs manual follow-up to reschedule missed referral." ++
        ("\n" ++ "\nCall transcript:\n" ++ pySlice "Hello patient" 500
          ++ "...") ∧
      (pySlice "Hello patient" 500).length ≤ 500 ∧
      (∃ rest, ("Hello patient" : String).toList =
        (pySlice "Hello patient" 500).toList ++ rest) ∧
      fd.title = "Follow-up needed: "
        ++ pyTitle (pyReplaceUnderscore "no_answer") :=
  ⟨by decide, flag_transcript_truncation "r-1" "no_answer" "Hello patient"
    (by decide)⟩

/-- C10: on any processed event whose outcome is "rescheduled" but whose new
appointment time is absent, the pipeline takes the flagger branch, not the
reschedule branch: no referral-reschedule effect appears in the trace, and a
FollowUpFlag is created whose recorded outcome is "rescheduled" (title
"Follow-up needed: Rescheduled", description opening with the outcome line)
and whose priority is the fallback medium, since "rescheduled" is not a key
of priority_map. -/
theorem rescheduled_without_time_creates_medium_flag
    (env : Env) (cl : CallLog) (p : ElevenLabsWebhookPayload)
    (ho : p.outcome = some "rescheduled")
    (htime : p.new_appointment_time = none) :
    ∃ fd, Effect.createFlag fd ∈ process_call_outcome env cl p ∧
      fd.priority = FlagPriority.medium ∧
      fd.title = "Follow-up needed: Rescheduled" ∧
      fd.description = "Automated call outcome: " ++ "rescheduled" ++ "\n" ++
        "Patient needs manual follow-up to reschedule missed referral." ++
        (if truthy p.transcript then
          "\n" ++ "\nCall transcript:\n" ++ pySlice (p.transcript.getD "") 500
            ++ "..."
         else "") ∧
      ∀ id t r, Effect.rescheduleReferral id t r ∉
        process_call_outcome env cl p := by
  have hc : (p.outcome == some "rescheduled"
      && p.new_appointment_time.isSome) = false := by
    rw [htime]
    simp
  have hout : pyOrStr p.outcome p.status = "rescheduled" := by
    rw [ho]
    simp [pyOrStr]
  refine ⟨follow_up_flag_data cl.referral_id "rescheduled" p.transcript,
    ?_, ?_, ?_, ?_, ?_⟩
  · simp [process_call_outcome, hc, hout, create_follow_up_flag]
  · rfl
  · rfl
  · rfl
  · intro id t r
    simp [process_call_outcome, hc, hout, create_follow_up_flag]

def payloadReschedNoTime : ElevenLabsWebhookPayload :=
  { call_id := "ev-6"
    status := "completed"
    outcome := some "rescheduled"
    new_appointment_time := none
    transcript := some "will call back"
    duration_seconds := some 30
    metadata := some [("call_log_id", "cl-1")] }

theorem rescheduled_without_time_creates_medium_flag_witness :
    ∃ fd, Effect.createFlag fd ∈
        process_call_outcome sampleEnv sampleCallLog payloadReschedNoTime ∧
      fd.priority = FlagPriority.medium ∧
      fd.title = "Follow-up needed: Rescheduled" ∧
      fd.description = "Automated call outcome: " ++ "rescheduled" ++ "\n" ++
        "Patient needs manual follow-up to reschedule missed referral." ++
        (if truthy payloadReschedNoTime.transcript then
          "\n" ++ "\nCall transcript:\n" ++
            pySlice (payloadReschedNoTime.transcript.getD "") 500 ++ "..."
         else "") ∧
      ∀ id t r, Effect.rescheduleReferral id t r ∉
        process_call_outcome sampleEnv sampleCallLog payloadReschedNoTime :=
  rescheduled_without_time_creates_medium_flag sampleEnv sampleCallLog
    payloadReschedNoTime rfl rfl
